import Mathlib

/-!
# Verification of the self-gating web collection engine

Shallow embedding of `agents/web_collection.py` (class `WebCollectionAgent`):
the deduplication step, reliability scoring, statistics aggregation, the
sufficiency gate, the query planner and the attempt loop of `execute`.

Conventions of the embedding:
* Python `float` arithmetic is modelled with `ℚ`.  All reliability scores the
  code can produce are decimal multiples of `0.1`; an exhaustive enumeration of
  the sixteen reachable score computations shows that the IEEE results, after
  the code's `round(score, 2)`, and all threshold comparisons agree with the
  exact rational computation, so the model is extensionally faithful there.
* `urllib.parse.urlparse` is treated as an abstract decomposition: a URL is
  modelled directly by its parsed components (`Url`).  A missing/empty `url`
  string is modelled as `none`.
* `datetime.utcnow()` / `datetime.now()` are impure reads of the clock; they
  are passed to the embedded functions as explicit parameters (`today`,
  `nowIso`).
* The human-readable Korean reason strings of `_evaluate_gate` are abstracted
  to fixed English tags; their number and order of appearance are preserved,
  only the display text differs.
* External effects (Tavily search, the LLM classifier) are abstracted by an
  oracle giving, for each attempt, either the list of analyzed documents that
  `_analyze_documents` returned or the message of an exception escaping the
  attempt body.
-/

set_option autoImplicit false

namespace WebCollection

/-- A calendar date: the date part of a Python `datetime`. -/
structure PDate where
  year : Nat
  month : Nat
  day : Nat
deriving Repr, DecidableEq

/-- The components of a parsed URL, as returned by `urllib.parse.urlparse`:
the module reads `scheme`, `netloc` (called `host` here) and `path`, and drops
`query` and `fragment`. -/
structure Url where
  scheme : String
  host : String
  path : String
  query : String
  fragment : String
deriving Repr, DecidableEq

/-- The fields of a document dictionary (as built by `_analyze_documents`)
that the engine later reads or writes.  Presentation-only fields (`title`,
`content`, `excerpt`, `two_line_summary`, `publisher`, `author`, verification
flags, collection provenance) play no role in any claim and are omitted.
`url = none` models a document whose `url` string is empty. -/
structure Doc where
  id : String
  url : Option Url
  source_type : String
  source_category : String
  date : Option String
  age_days : Nat
  is_recent : Bool
  reliability : String
  reliability_score : ℚ
  reliability_reasons : List String
  evidence_tier : String
deriving Repr, DecidableEq

/-- The `threshold_profile` dictionary built at the start of `execute`. -/
structure ThresholdProfile where
  min_docs : Nat
  min_primary : Nat
  recent_window_days : Nat
  min_recent : Nat
  avg_rel_min : ℚ
  low_ratio_max : ℚ
  distinct_domains_min : Nat
  category_diversity_min : Nat
  max_attempts : Nat
deriving Repr, DecidableEq

/-- The default profile: the class constants of `WebCollectionAgent`
(`DEFAULT_MIN_DOCS = 50`, …); `execute` always runs with exactly this
profile. -/
def defaultThresholdProfile : ThresholdProfile :=
  { min_docs := 50
    min_primary := 2
    recent_window_days := 180
    min_recent := 3
    avg_rel_min := 6/10
    low_ratio_max := 3/10
    distinct_domains_min := 4
    category_diversity_min := 2
    max_attempts := 2 }

/-- The statistics dictionary produced by `_calculate_statistics`.
`sources_breakdown` is an insertion-ordered association list modelling the
Python dict (unique keys by construction). -/
structure Stats where
  sources_breakdown : List (String × Nat)
  primary_sources_count : Nat
  secondary_sources_count : Nat
  newest_date : Option String
  oldest_date : Option String
  recent_documents_count : Nat
  high_reliability_count : Nat
  medium_reliability_count : Nat
  low_reliability_count : Nat
  average_reliability : ℚ
deriving Repr, DecidableEq

/-- Python `str.strip` (ASCII whitespace) over the character data. -/
def pyStrip (s : String) : String :=
  String.mk
    (((s.data.dropWhile (fun c => c.isWhitespace)).reverse.dropWhile
      (fun c => c.isWhitespace)).reverse)

/-- Python `str.lower` over the character data. -/
def lowerString (s : String) : String :=
  String.mk (s.data.map Char.toLower)

/-- `_normalize_url`: keep the scheme, the lower-cased host and the path;
the query string and the fragment are dropped. -/
def normalizeUrl (u : Url) : String :=
  u.scheme ++ "://" ++ lowerString u.host ++ u.path

/-- `_distinct_domains`: the set of non-empty lower-cased hostnames of the
documents, modelled as a duplicate-free list. -/
def distinctDomains (documents : List Doc) : List String :=
  documents.foldl (fun ds d =>
    match d.url with
    | none => ds
    | some u =>
        let host := lowerString u.host
        if host = "" then ds
        else if host ∈ ds then ds else ds ++ [host]) []

/-- The low-reliability ratio used by `_evaluate_gate`:
`low_cnt / total`, defined as `1.0` when `total` is `0`. -/
def lowRatio (lowCnt total : Nat) : ℚ :=
  if 0 < total then (lowCnt : ℚ) / (total : ℚ) else 1

/-- The category-diversity count of `_evaluate_gate`: the number of
categories of the breakdown with at least one document. -/
def categoryDiversity (breakdown : List (String × Nat)) : Nat :=
  (breakdown.filter (fun kv => 0 < kv.2)).length

/-- Gregorian leap year, as in Python `datetime`. -/
def isLeapYear (y : Nat) : Bool :=
  (y % 4 == 0 && y % 100 != 0) || y % 400 == 0

/-- Days in a month of the proleptic Gregorian calendar. -/
def daysInMonth (y m : Nat) : Nat :=
  if m = 2 then (if isLeapYear y then 29 else 28)
  else if m = 4 ∨ m = 6 ∨ m = 9 ∨ m = 11 then 30
  else 31

/-- Validity of `datetime(year, month, day)`: the constructor raises unless
`1 ≤ year ≤ 9999`, `1 ≤ month ≤ 12` and `1 ≤ day ≤` days in the month. -/
def dateValid (y m d : Nat) : Bool :=
  decide (1 ≤ y) && decide (y ≤ 9999) && decide (1 ≤ m) && decide (m ≤ 12) &&
  decide (1 ≤ d) && decide (d ≤ daysInMonth y m)

/-- Days before the first of the given month within a year. -/
def daysBeforeMonth (y m : Nat) : Nat :=
  (List.range (m - 1)).foldl (fun acc i => acc + daysInMonth y (i + 1)) 0

/-- Proleptic-Gregorian ordinal of a date (as in `datetime.toordinal`);
differences of ordinals give `timedelta.days` between midnights. -/
def toOrdinal (d : PDate) : Nat :=
  365 * (d.year - 1) + (d.year - 1) / 4 - (d.year - 1) / 100 + (d.year - 1) / 400 +
    daysBeforeMonth d.year d.month + d.day

/-- Numeric value of a decimal digit character. -/
def digitVal (c : Char) : Nat := c.toNat - 48

/-- The separator class (dash, slash or dot) of the numeric date pattern. -/
def isSep (c : Char) : Bool := c == '-' || c == '/' || c == '.'

/-- `datetime.fromisoformat` restricted to date-only strings `YYYY-MM-DD`
(time-suffixed ISO strings are not modelled here; for them the numeric
pattern fallback of `_parse_date` recovers the same calendar date, so
`parseDate` is unaffected). -/
def parseIso (s : String) : Option PDate :=
  match s.data with
  | [y1, y2, y3, y4, h1, m1, m2, h2, d1, d2] =>
      if y1.isDigit && y2.isDigit && y3.isDigit && y4.isDigit && h1 == '-' &&
         m1.isDigit && m2.isDigit && h2 == '-' && d1.isDigit && d2.isDigit then
        let y := 1000 * digitVal y1 + 100 * digitVal y2 + 10 * digitVal y3 + digitVal y4
        let mo := 10 * digitVal m1 + digitVal m2
        let dy := 10 * digitVal d1 + digitVal d2
        if dateValid y mo dy then some ⟨y, mo, dy⟩ else none
      else none
  | _ => none

/-- Match one or two digits then a separator, with the greedy-then-backtrack semantics of the
regex engine: two digits followed by a separator if possible, else one digit
followed by a separator; returns the value and the characters after the
separator. -/
def matchMonth : List Char → Option (Nat × List Char)
  | m1 :: m2 :: s2 :: rest =>
      if m1.isDigit && m2.isDigit && isSep s2 then
        some (10 * digitVal m1 + digitVal m2, rest)
      else if m1.isDigit && isSep m2 then some (digitVal m1, s2 :: rest)
      else none
  | [m1, m2] => if m1.isDigit && isSep m2 then some (digitVal m1, []) else none
  | _ => none

/-- Match the trailing `(\d{1,2})` day group (greedy, nothing follows). -/
def matchDay : List Char → Option Nat
  | d1 :: d2 :: _ =>
      if d1.isDigit && d2.isDigit then some (10 * digitVal d1 + digitVal d2)
      else if d1.isDigit then some (digitVal d1)
      else none
  | [d1] => if d1.isDigit then some (digitVal d1) else none
  | [] => none

/-- Match the numeric pattern (four digits, then separator, one or two
digits, separator, one or two digits) at the
start of the character list. -/
def matchNumericAt (cs : List Char) : Option (Nat × Nat × Nat) :=
  match cs with
  | a :: b :: c :: d :: s1 :: rest =>
      if a.isDigit && b.isDigit && c.isDigit && d.isDigit && isSep s1 then
        match matchMonth rest with
        | some (mo, afterSep) =>
            match matchDay afterSep with
            | some dy =>
                some (1000 * digitVal a + 100 * digitVal b + 10 * digitVal c + digitVal d,
                  mo, dy)
            | none => none
        | none => none
      else none
  | _ => none

/-- `re.search` of the numeric date pattern: leftmost position at which the
pattern matches. -/
def searchNumericDate : List Char → Option (Nat × Nat × Nat)
  | [] => none
  | c :: cs =>
      match matchNumericAt (c :: cs) with
      | some r => some r
      | none => searchNumericDate cs

/-- Match `,?\s+(\d{4})` after the day group: an optional comma, at least
one whitespace character, then four digits (further characters may follow). -/
def matchYearTail (cs : List Char) : Option Nat :=
  let cs2 := match cs with
    | ',' :: t => t
    | _ => cs
  let (ws, rest) := cs2.span (fun c => c.isWhitespace)
  if ws.isEmpty then none
  else match rest with
    | a :: b :: c :: d :: _ =>
        if a.isDigit && b.isDigit && c.isDigit && d.isDigit then
          some (1000 * digitVal a + 100 * digitVal b + 10 * digitVal c + digitVal d)
        else none
    | _ => none

/-- Match the textual pattern `([A-Za-z]+)\s+(\d{1,2}),?\s+(\d{4})` at the
start of the character list, with the day group greedy then backtracking. -/
def matchTextualAt (cs : List Char) : Option (String × Nat × Nat) :=
  let (letters, rest) := cs.span (fun c => c.isAlpha)
  if letters.isEmpty then none
  else
    let (ws, rest2) := rest.span (fun c => c.isWhitespace)
    if ws.isEmpty then none
    else
      match rest2 with
      | d1 :: d2 :: rest3 =>
          if d1.isDigit && d2.isDigit then
            match matchYearTail rest3 with
            | some y => some (String.mk letters, 10 * digitVal d1 + digitVal d2, y)
            | none =>
                match matchYearTail (d2 :: rest3) with
                | some y => some (String.mk letters, digitVal d1, y)
                | none => none
          else if d1.isDigit then
            match matchYearTail (d2 :: rest3) with
            | some y => some (String.mk letters, digitVal d1, y)
            | none => none
          else none
      | _ => none

/-- `re.search` of the textual date pattern: leftmost match. -/
def searchTextualDate : List Char → Option (String × Nat × Nat)
  | [] => none
  | c :: cs =>
      match matchTextualAt (c :: cs) with
      | some r => some r
      | none => searchTextualDate cs

/-- The month-name map built by `_parse_date`.  The source also intends to
add the full `calendar.month_name` entries, but its second comprehension
`{m.lower(): i for i in month_name if m}` iterates `i` over the names while
the filter tests the enclosing variable `m` — the regex match object, which
is `None` whenever this line runs — so it adds nothing; only the
`calendar.month_abbr` entries exist. -/
def monMap (s : String) : Option Nat :=
  if s = "jan" then some 1
  else if s = "feb" then some 2
  else if s = "mar" then some 3
  else if s = "apr" then some 4
  else if s = "may" then some 5
  else if s = "jun" then some 6
  else if s = "jul" then some 7
  else if s = "aug" then some 8
  else if s = "sep" then some 9
  else if s = "oct" then some 10
  else if s = "nov" then some 11
  else if s = "dec" then some 12
  else none

/-- `_parse_date`: `None`/empty → `None`; otherwise strip, try ISO, then the
numeric `YYYY-M-D`-with-separators search (an invalid calendar date returns `None`
without trying the textual form, as the `except` of the source does), then
the textual `Month D, YYYY` search through `monMap`. -/
def parseDate (s? : Option String) : Option PDate :=
  match s? with
  | none => none
  | some s =>
      if s = "" then none
      else
        let t := pyStrip s
        match parseIso t with
        | some d => some d
        | none =>
            match searchNumericDate t.data with
            | some (y, mo, dy) => if dateValid y mo dy then some ⟨y, mo, dy⟩ else none
            | none =>
                match searchTextualDate t.data with
                | some (mon, dy, y) =>
                    match monMap (lowerString mon) with
                    | some mi => if dateValid y mi dy then some ⟨y, mi, dy⟩ else none
                    | none => none
                | none => none

/-- Zero-padded two-digit decimal. -/
def pad2 (n : Nat) : String :=
  if n < 10 then "0" ++ toString n else toString n

/-- Zero-padded four-digit decimal. -/
def pad4 (n : Nat) : String :=
  if n < 10 then "000" ++ toString n
  else if n < 100 then "00" ++ toString n
  else if n < 1000 then "0" ++ toString n
  else toString n

/-- `date().isoformat()`: `YYYY-MM-DD`. -/
def isoOfDate (d : PDate) : String :=
  pad4 d.year ++ "-" ++ pad2 d.month ++ "-" ++ pad2 d.day

/-- The category bonus table of `_calculate_reliability`
(`company: +0.1, news: 0.0, blog: -0.1`, default `0.0`). -/
def categoryBonus (category : String) : ℚ :=
  if category = "company" then 1/10
  else if category = "news" then 0
  else if category = "blog" then -(1/10)
  else 0

/-- Round-half-to-even to an integer: Python `round` on an exact value. -/
def roundHalfEven (q : ℚ) : ℤ :=
  let f := ⌊q⌋
  let r := q - f
  if r < 1/2 then f
  else if 1/2 < r then f + 1
  else if f % 2 = 0 then f else f + 1

/-- Python `round(x, 2)` modelled on exact rationals. -/
def round2 (q : ℚ) : ℚ := (roundHalfEven (q * 100) : ℚ) / 100

/-- The four document fields written by `_calculate_reliability`. -/
structure ReliabilityResult where
  reliability : String
  reliability_score : ℚ
  reliability_reasons : List String
  evidence_tier : String
deriving Repr, DecidableEq

/-- `_calculate_reliability`: additive score starting at `0.5` (`+0.2` for a
primary source, category bonus, `+0.1` if recent), clamped to `[0, 1]`;
label and tier come from the unrounded clamped score (`>= 0.7` high/tier1,
`>= 0.4` medium/tier2, else low/tier3); the returned score is
`round(score, 2)`.  The single if/elif/else of the source assigns the label
and the tier together; they are written here as two ifs with the same
conditions. -/
def calculateReliability (doc : Doc) : ReliabilityResult :=
  let score : ℚ := 1/2
  let reasons : List String := []
  let score := if doc.source_type = "primary" then score + 2/10 else score
  let reasons := if doc.source_type = "primary" then
      reasons ++ ["primary source"] else reasons
  let score := score + categoryBonus doc.source_category
  let score := if doc.is_recent then score + 1/10 else score
  let reasons := if doc.is_recent then
      reasons ++ ["recent within policy window"] else reasons
  let score := max 0 (min 1 score)
  let reliability := if 7/10 ≤ score then "high"
    else if 4/10 ≤ score then "medium" else "low"
  let tier := if 7/10 ≤ score then "tier1"
    else if 4/10 ≤ score then "tier2" else "tier3"
  { reliability := reliability
    reliability_score := round2 score
    reliability_reasons := reasons
    evidence_tier := tier }

/-- Lexicographic `≤` on character lists by code point, the order Python
uses to compare strings. -/
def lexLeChars : List Char → List Char → Bool
  | [], _ => true
  | _ :: _, [] => false
  | a :: as, b :: bs =>
      if a.val < b.val then true
      else if b.val < a.val then false
      else lexLeChars as bs

/-- Python string `≤` (lexicographic by code point). -/
def strLe (a b : String) : Bool := lexLeChars a.data b.data

/-- The recency window used by `_assess_reliability`
(`DEFAULT_RECENT_WINDOW_DAYS = 180`). -/
def defaultRecentWindowDays : ℤ := 180

/-- `_assess_reliability` for one document: recency from the parsed date
(`age_days = max(0, (utcnow - date).days)`, `is_recent` from the unclamped
day difference, the date re-serialized to ISO), or sentinel `9999` and
`is_recent = false` when the date is missing or unparseable; then the four
reliability fields from `_calculate_reliability`.  `today` is the date of
`datetime.utcnow()`; the time of day is abstracted away, which leaves the
whole-day difference unchanged. -/
def assessOne (today : PDate) (doc : Doc) : Doc :=
  let doc :=
    match parseDate doc.date with
    | some d =>
        let age : ℤ := (toOrdinal today : ℤ) - (toOrdinal d : ℤ)
        { doc with age_days := (max 0 age).toNat
                   is_recent := age ≤ defaultRecentWindowDays
                   date := some (isoOfDate d) }
    | none =>
        { doc with age_days := 9999, is_recent := false, date := none }
  let r := calculateReliability doc
  { doc with reliability := r.reliability
             reliability_score := r.reliability_score
             reliability_reasons := r.reliability_reasons
             evidence_tier := r.evidence_tier }

/-- `_assess_reliability`: update every document in place. -/
def assessReliability (today : PDate) (documents : List Doc) : List Doc :=
  documents.map (assessOne today)

/-- The all-zero statistics dictionary returned for an empty corpus. -/
def emptyStats : Stats :=
  { sources_breakdown := []
    primary_sources_count := 0
    secondary_sources_count := 0
    newest_date := none
    oldest_date := none
    recent_documents_count := 0
    high_reliability_count := 0
    medium_reliability_count := 0
    low_reliability_count := 0
    average_reliability := 0 }

/-- `sources_breakdown[cat] = sources_breakdown.get(cat, 0) + 1` on the
insertion-ordered association list. -/
def bumpCategory : List (String × Nat) → String → List (String × Nat)
  | [], cat => [(cat, 1)]
  | (k, v) :: rest, cat =>
      if k = cat then (k, v + 1) :: rest else (k, v) :: bumpCategory rest cat

/-- The body of the statistics loop of `_calculate_statistics` for one
document: category breakdown, primary/secondary split, recency count and the
reliability histogram (any label other than `high`/`medium` counts low). -/
def statsStep (st : Stats) (doc : Doc) : Stats :=
  let st := { st with sources_breakdown := bumpCategory st.sources_breakdown doc.source_category }
  let st := if doc.source_type = "primary" then
      { st with primary_sources_count := st.primary_sources_count + 1 }
    else { st with secondary_sources_count := st.secondary_sources_count + 1 }
  let st := if doc.is_recent then
      { st with recent_documents_count := st.recent_documents_count + 1 }
    else st
  if doc.reliability = "high" then
    { st with high_reliability_count := st.high_reliability_count + 1 }
  else if doc.reliability = "medium" then
    { st with medium_reliability_count := st.medium_reliability_count + 1 }
  else
    { st with low_reliability_count := st.low_reliability_count + 1 }

/-- `_calculate_statistics`: all-zero for an empty corpus; otherwise the
counting loop, the lexicographic min/max over the present date strings
(Python `min`/`max` on strings), and the rounded mean of the reliability
scores. -/
def calculateStatistics (documents : List Doc) : Stats :=
  if documents.isEmpty then emptyStats
  else
    let st := documents.foldl statsStep emptyStats
    let dates := documents.filterMap (fun d => d.date)
    let st :=
      match dates with
      | [] => st
      | x :: xs =>
          { st with
            newest_date := some (xs.foldl (fun a b => if strLe b a then a else b) x)
            oldest_date := some (xs.foldl (fun a b => if strLe a b then a else b) x) }
    let avg := (documents.foldl (fun acc d => acc + d.reliability_score) 0) /
      (documents.length : ℚ)
    { st with average_reliability := round2 avg }

/-- Stable insertion of a string into a sorted list (ascending). -/
def insertSorted (a : String) : List String → List String
  | [] => [a]
  | b :: bs => if strLe a b then a :: b :: bs else b :: insertSorted a bs

/-- Ascending insertion sort on strings, modelling Python's `sorted` on a
list of strings (both produce the unique sorted permutation of a
duplicate-free list). -/
def sortStrings (l : List String) : List String :=
  l.foldr insertSorted []

/-- One conditional slot append of `_evaluate_gate`:
`if cond: missing.append(slot)`. -/
def appendIf (c : Prop) [Decidable c] (missing : List String) (slot : String) :
    List String :=
  if c then missing ++ [slot] else missing

/-- One guarded slot append of `_evaluate_gate`:
`if cond: (if slot not in missing: missing.append(slot))`. -/
def appendIfNew (c : Prop) [Decidable c] (missing : List String) (slot : String) :
    List String :=
  if c then (if slot ∈ missing then missing else missing ++ [slot]) else missing

/-- `_company_domain_hint`: lower-case the company name, keep only
`[a-z0-9]`, append `.com`. -/
def companyDomainHint (companyName : String) : String :=
  String.mk ((lowerString companyName).data.filter
    (fun c => (decide ('a' ≤ c) && decide (c ≤ 'z')) ||
      (decide ('0' ≤ c) && decide (c ≤ '9')))) ++ ".com"

/-- The fixed broad baseline of `_build_queries` (ten queries). -/
def baseQueries (companyName domain : String) : List String :=
  [ companyName ++ " " ++ domain ++ " company overview",
    companyName ++ " product features technology",
    companyName ++ " news press release",
    companyName ++ " case study",
    companyName ++ " whitepaper",
    companyName ++ " interview",
    companyName ++ " site:medium.com",
    companyName ++ " site:github.com",
    companyName ++ " site:linkedin.com",
    companyName ++ " funding announcement" ]

/-- The slot-targeted queries of `_build_queries`, appended in source order
(primary, recent, docs_count, reliability, diversity).  `recentCut` is the
ISO date `(utcnow - recent_window_days).date()` computed by the source from
the clock. -/
def targetedQueries (companyName domain : String) (missing : List String)
    (recentCut : String) : List String :=
  let q : List String := []
  let q := if "primary" ∈ missing then q ++ [
      companyName ++ " site:" ++ companyDomainHint companyName ++
        " (press OR newsroom OR investors)",
      companyName ++ " press release site:" ++ companyDomainHint companyName,
      companyName ++ " site:" ++ companyDomainHint companyName ++ " blog" ] else q
  let q := if "recent" ∈ missing then q ++ [
      companyName ++ " (\"launch\" OR \"announced\" OR \"funding\") after:" ++ recentCut,
      companyName ++ " press release after:" ++ recentCut ] else q
  let q := if "docs_count" ∈ missing then q ++ [
      companyName ++ " " ++ domain ++ " case study pdf",
      companyName ++ " " ++ domain ++ " whitepaper pdf",
      companyName ++ " architecture overview" ] else q
  let q := if "reliability" ∈ missing then q ++ [
      companyName ++ " site:sec.gov OR site:europa.eu OR site:ec.europa.eu",
      companyName ++ " site:iso.org OR site:ieee.org standard",
      companyName ++ " analyst report site:gartner.com OR site:forrester.com" ] else q
  let q := if "diversity" ∈ missing then q ++ [
      companyName ++ " review technology analysis",
      companyName ++ " " ++ domain ++ " industry report",
      companyName ++ " competitors comparison" ] else q
  q

/-- `_build_queries`: the baseline on attempt 1, the baseline again when no
slot is missing, and otherwise the baseline followed by the slot-targeted
queries.  `attempt` and `missing` are the fields the source reads from
`state["web_collection"]`. -/
def buildQueries (companyName domain : String) (attempt : Nat) (missing : List String)
    (recentCut : String) : List String :=
  if attempt = 1 then baseQueries companyName domain
  else if missing = [] then baseQueries companyName domain
  else baseQueries companyName domain ++ targetedQueries companyName domain missing recentCut

/-- The `missing` slot list built by `_evaluate_gate`: the seven threshold
checks run in source order, each appending its slot on failure, with the
explicit duplication guards for `reliability` and `diversity`. -/
def gateMissing (documents : List Doc) (stats : Stats) (policy : ThresholdProfile) :
    List String :=
  let total := documents.length
  let missing : List String := []
  let missing := appendIf (total < policy.min_docs) missing "docs_count"
  let missing := appendIf (stats.primary_sources_count < policy.min_primary) missing "primary"
  let missing := appendIf (stats.recent_documents_count < policy.min_recent) missing "recent"
  let missing := appendIf (stats.average_reliability < policy.avg_rel_min) missing "reliability"
  let ratio := lowRatio stats.low_reliability_count total
  let missing := appendIfNew (policy.low_ratio_max < ratio) missing "reliability"
  let missing := appendIf
      ((distinctDomains documents).length < policy.distinct_domains_min) missing "diversity"
  let missing := appendIfNew
      (categoryDiversity stats.sources_breakdown < policy.category_diversity_min)
      missing "diversity"
  missing

/-- The `reasons` list built by `_evaluate_gate`, appended in the same order
as the slot checks; the Korean display texts are abstracted to fixed tags. -/
def gateReasons (documents : List Doc) (stats : Stats) (policy : ThresholdProfile) :
    List String :=
  let total := documents.length
  let reasons : List String := []
  let reasons := if total < policy.min_docs then reasons ++ ["docs shortfall"] else reasons
  let reasons := if stats.primary_sources_count < policy.min_primary then
      reasons ++ ["primary shortfall"] else reasons
  let reasons := if stats.recent_documents_count < policy.min_recent then
      reasons ++ ["recent shortfall"] else reasons
  let reasons := if stats.average_reliability < policy.avg_rel_min then
      reasons ++ ["average reliability low"] else reasons
  let ratio := lowRatio stats.low_reliability_count total
  let reasons := if policy.low_ratio_max < ratio then
      reasons ++ ["low-reliability ratio high"] else reasons
  let reasons := if (distinctDomains documents).length < policy.distinct_domains_min then
      reasons ++ ["domain diversity shortfall"] else reasons
  let reasons := if categoryDiversity stats.sources_breakdown < policy.category_diversity_min then
      reasons ++ ["category diversity shortfall"] else reasons
  reasons

/-- `_evaluate_gate`: `passed = (len(missing) == 0)`, and the returned slot
list is `sorted(set(missing))`. -/
def evaluateGate (documents : List Doc) (stats : Stats) (policy : ThresholdProfile) :
    Bool × List String × List String :=
  let missing := gateMissing documents stats policy
  let passed := missing.length == 0
  (passed, sortStrings missing.dedup, gateReasons documents stats policy)

/-- The `gate` sub-dictionary of the run state. -/
structure GateResult where
  passed : Bool
  missing_slots : List String
  reasons : List String
deriving Repr, DecidableEq

/-- One entry of `decision_log`. -/
structure DecisionEntry where
  attempt : Nat
  queries : List String
  new_docs : Nat
  total_docs : Nat
  gate_passed : Bool
  missing_slots : List String
  reasons : List String
  timestamp : String
deriving Repr, DecidableEq

/-- The `state["web_collection"]` dictionary (the stats keys merged by
`update(**stats)` are grouped in the `stats` field). -/
structure WebCollectionState where
  status : String
  documents : List Doc
  count : Nat
  sources : List String
  stats : Stats
  gate : GateResult
  attemptsCurrent : Nat
  attemptsMax : Nat
  decisionLog : List DecisionEntry
  thresholdProfile : ThresholdProfile
  error : Option String
deriving Repr, DecidableEq

/-- One entry of `state["errors"]`. -/
structure ErrorEntry where
  stage : String
  error : String
  timestamp : String
  recovered : Bool
  traceback : Option String
  impact_on_reliability : String
deriving Repr, DecidableEq

/-- The parts of the pipeline state that `execute` owns. -/
structure RunState where
  web_collection : WebCollectionState
  errors : List ErrorEntry
deriving Repr, DecidableEq

/-- The initial `state["web_collection"]` dictionary of `execute` (its stats
keys are exactly the all-zero statistics). -/
def initWebState : WebCollectionState :=
  { status := "insufficient"
    documents := []
    count := 0
    sources := []
    stats := emptyStats
    gate := { passed := false, missing_slots := [], reasons := [] }
    attemptsCurrent := 0
    attemptsMax := defaultThresholdProfile.max_attempts
    decisionLog := []
    thresholdProfile := defaultThresholdProfile
    error := none }

/-- The normalized URL of a document (`""` for a missing URL, as
`urlparse("")` yields empty components). -/
def docNorm (d : Doc) : String :=
  match d.url with
  | some u => normalizeUrl u
  | none => ""

/-- Step 4 of `execute`: the deduplicate-and-merge loop over the analyzed
hits.  A hit without a URL is skipped; a hit whose normalized URL is in the
seen-set is skipped; otherwise it is kept and its normalized URL joins the
seen-set. -/
def dedupNew (seen : List String) : List Doc → List Doc × List String
  | [] => ([], seen)
  | d :: rest =>
      match d.url with
      | none => dedupNew seen rest
      | some u =>
          let norm := normalizeUrl u
          if norm ∈ seen then dedupNew seen rest
          else
            let r := dedupNew (seen ++ [norm]) rest
            (d :: r.1, r.2)

/-- The corpus and seen-set after processing a sequence of per-attempt
analyzed batches, starting from a given corpus and seen-set: steps 4–5 of
`execute` iterated (dedup, extend, re-assess). -/
def accumulateFrom (today : PDate) (cumulative : List Doc) (seen : List String) :
    List (List Doc) → List Doc × List String
  | [] => (cumulative, seen)
  | batch :: rest =>
      let r := dedupNew seen batch
      accumulateFrom today (assessReliability today (cumulative ++ r.1)) r.2 rest

/-- The cumulative corpus and seen-set of a run that processed the given
batches from the empty state. -/
def accumulate (today : PDate) (batches : List (List Doc)) : List Doc × List String :=
  accumulateFrom today [] [] batches

/-- The gating loop of `execute` (the `while` over attempts).  `fuel` is the
remaining number of loop iterations: the loop condition `current < max`
together with the `current` increment per iteration makes `max_attempts`
iterations an exact bound, so `execute` passes `max_attempts` as fuel.
`oracle` abstracts steps 1–3 (query dispatch and LLM analysis): for each
attempt number it yields the analyzed documents, or the message of an
exception escaping the attempt body (handled by the outer `try`/`except` of
`execute`, which records the error and stops the loop). -/
def executeGo (today : PDate) (nowIso company domain recentCut : String)
    (oracle : Nat → Except String (List Doc)) :
    Nat → RunState → List Doc → List String → RunState
  | 0, st, _, _ => st
  | fuel + 1, st, cumulative, seen =>
      if st.web_collection.attemptsCurrent < st.web_collection.attemptsMax then
        let wc := { st.web_collection with
          attemptsCurrent := st.web_collection.attemptsCurrent + 1 }
        let attemptNo := wc.attemptsCurrent
        let st := { st with web_collection := wc }
        match oracle attemptNo with
        | Except.error e =>
            { st with
              web_collection := { st.web_collection with
                status := "degraded", error := some e }
              errors := st.errors ++
                [{ stage := "web_collection", error := e, timestamp := nowIso,
                   recovered := false, traceback := none,
                   impact_on_reliability := "high" }] }
        | Except.ok analyzed =>
            let queries := buildQueries company domain attemptNo wc.gate.missing_slots recentCut
            let r := dedupNew seen analyzed
            let cumulative := assessReliability today (cumulative ++ r.1)
            let stats := calculateStatistics cumulative
            let g := evaluateGate cumulative stats wc.thresholdProfile
            let wc := { wc with
              documents := cumulative
              count := cumulative.length
              sources := (cumulative.map (fun (d : Doc) => d.source_category)).dedup
              stats := stats
              gate := { passed := g.1, missing_slots := g.2.1, reasons := g.2.2 }
              status := if g.1 then "completed" else "insufficient"
              error := none }
            let wc := { wc with decisionLog := wc.decisionLog ++
              [({ attempt := attemptNo, queries := queries, new_docs := r.1.length,
                  total_docs := cumulative.length, gate_passed := g.1,
                  missing_slots := g.2.1, reasons := g.2.2,
                  timestamp := nowIso } : DecisionEntry)] }
            let st := { st with web_collection := wc }
            if g.1 then st
            else if wc.attemptsMax ≤ attemptNo then
              { st with web_collection := { wc with status := "partial" } }
            else executeGo today nowIso company domain recentCut oracle fuel st cumulative r.2
      else st

/-- `execute`: initialize `state["web_collection"]` (with the default
threshold profile built from the class constants) and run the self-gating
loop.  `today`/`nowIso`/`recentCut` are the values the source reads from the
clock; `oracle` abstracts the external search-and-classify pipeline. -/
def execute (today : PDate) (nowIso company domain recentCut : String)
    (oracle : Nat → Except String (List Doc)) : RunState :=
  executeGo today nowIso company domain recentCut oracle
    defaultThresholdProfile.max_attempts
    { web_collection := initWebState, errors := [] } [] []

/-- A concrete document used by witnesses. -/
def wDocA : Doc :=
  { id := "web_00000001"
    url := some ⟨"https", "Example.com", "/about", "utm=1", "top"⟩
    source_type := "secondary"
    source_category := "news"
    date := none
    age_days := 0
    is_recent := false
    reliability := "medium"
    reliability_score := 1/2
    reliability_reasons := []
    evidence_tier := "tier2" }

/-- A second concrete document with a different URL. -/
def wDocB : Doc :=
  { wDocA with id := "web_00000002", url := some ⟨"https", "other.org", "/", "", ""⟩ }

/-- A concrete reference date used by witnesses. -/
def wToday : PDate := ⟨2025, 6, 1⟩

theorem insertSorted_perm (a : String) (l : List String) :
    List.Perm (insertSorted a l) (a :: l) := by
  induction l with
  | nil => exact List.Perm.refl _
  | cons b bs ih =>
      simp only [insertSorted]
      split
      · exact List.Perm.refl _
      · exact (ih.cons b).trans (List.Perm.swap a b bs)

theorem sortStrings_perm (l : List String) : List.Perm (sortStrings l) l := by
  induction l with
  | nil => exact List.Perm.refl _
  | cons a as ih =>
      exact (insertSorted_perm a (sortStrings as)).trans (ih.cons a)

theorem mem_sortStrings_dedup (x : String) (l : List String) :
    x ∈ sortStrings l.dedup ↔ x ∈ l := by
  rw [(sortStrings_perm l.dedup).mem_iff, List.mem_dedup]

theorem nodup_sortStrings_dedup (l : List String) : (sortStrings l.dedup).Nodup :=
  ((sortStrings_perm l.dedup).nodup_iff).mpr l.nodup_dedup

theorem sortStrings_dedup_eq_nil (l : List String) :
    sortStrings l.dedup = [] ↔ l = [] := by
  rw [← List.length_eq_zero, (sortStrings_perm l.dedup).length_eq,
    List.length_eq_zero, List.dedup_eq_nil]

theorem mem_ite_singleton (x y : String) (c : Prop) [Decidable c] :
    x ∈ (if c then [y] else ([] : List String)) ↔ c ∧ x = y := by
  split <;> simp_all

theorem ite_singleton_eq_nil (y : String) (c : Prop) [Decidable c] :
    (if c then [y] else ([] : List String)) = [] ↔ ¬c := by
  split <;> simp_all

theorem appendIf_eq (c : Prop) [Decidable c] (l : List String) (s : String) :
    appendIf c l s = l ++ (if c then [s] else []) := by
  unfold appendIf
  split <;> simp

theorem appendIfNew_append_ite (cPrev c : Prop) [Decidable cPrev] [Decidable c]
    (l : List String) (s : String) (hs : s ∉ l) :
    appendIfNew c (l ++ (if cPrev then [s] else [])) s =
    l ++ (if cPrev ∨ c then [s] else []) := by
  by_cases h1 : cPrev <;> by_cases h2 : c <;> simp_all [appendIfNew]

/-- The slot list of `_evaluate_gate` decomposes into five independent
segments, one per named slot, with the two `reliability` checks and the two
`diversity` checks merged disjunctively by the duplication guards. -/
theorem gateMissing_eq (documents : List Doc) (stats : Stats) (policy : ThresholdProfile) :
    gateMissing documents stats policy =
      (if documents.length < policy.min_docs then ["docs_count"] else []) ++
      (if stats.primary_sources_count < policy.min_primary then ["primary"] else []) ++
      (if stats.recent_documents_count < policy.min_recent then ["recent"] else []) ++
      (if stats.average_reliability < policy.avg_rel_min ∨
          policy.low_ratio_max < lowRatio stats.low_reliability_count documents.length then
        ["reliability"] else []) ++
      (if (distinctDomains documents).length < policy.distinct_domains_min ∨
          categoryDiversity stats.sources_breakdown < policy.category_diversity_min then
        ["diversity"] else []) := by
  simp only [gateMissing, appendIf_eq, List.nil_append]
  rw [appendIfNew_append_ite, appendIfNew_append_ite]
  all_goals
    first
      | (simp [List.append_assoc]
         done)
      | (simp only [appendIfNew]
         split_ifs <;> simp_all [mem_ite_singleton])

/-- C1: `_evaluate_gate` passes exactly when all seven threshold checks hold;
each failing check contributes its named slot to `missing_slots`, the
`reliability` and `diversity` slots are not duplicated when both of their
checks fail, and `passed` is true exactly when `missing_slots` is empty. -/
theorem evaluateGate_spec (documents : List Doc) (stats : Stats) (policy : ThresholdProfile) :
    ((evaluateGate documents stats policy).1 = true ↔
      (policy.min_docs ≤ documents.length ∧
       policy.min_primary ≤ stats.primary_sources_count ∧
       policy.min_recent ≤ stats.recent_documents_count ∧
       policy.avg_rel_min ≤ stats.average_reliability ∧
       lowRatio stats.low_reliability_count documents.length ≤ policy.low_ratio_max ∧
       policy.distinct_domains_min ≤ (distinctDomains documents).length ∧
       policy.category_diversity_min ≤ categoryDiversity stats.sources_breakdown)) ∧
    ((evaluateGate documents stats policy).1 = true ↔
      (evaluateGate documents stats policy).2.1 = []) ∧
    (evaluateGate documents stats policy).2.1.Nodup ∧
    ("docs_count" ∈ (evaluateGate documents stats policy).2.1 ↔
      documents.length < policy.min_docs) ∧
    ("primary" ∈ (evaluateGate documents stats policy).2.1 ↔
      stats.primary_sources_count < policy.min_primary) ∧
    ("recent" ∈ (evaluateGate documents stats policy).2.1 ↔
      stats.recent_documents_count < policy.min_recent) ∧
    ("reliability" ∈ (evaluateGate documents stats policy).2.1 ↔
      (stats.average_reliability < policy.avg_rel_min ∨
       policy.low_ratio_max < lowRatio stats.low_reliability_count documents.length)) ∧
    ("diversity" ∈ (evaluateGate documents stats policy).2.1 ↔
      ((distinctDomains documents).length < policy.distinct_domains_min ∨
       categoryDiversity stats.sources_breakdown < policy.category_diversity_min)) := by
  have hm := gateMissing_eq documents stats policy
  have hproj : (evaluateGate documents stats policy).2.1 =
      sortStrings (gateMissing documents stats policy).dedup := rfl
  have hpass : (evaluateGate documents stats policy).1 =
      ((gateMissing documents stats policy).length == 0) := rfl
  refine ⟨?_, ?_, hproj ▸ nodup_sortStrings_dedup _, ?_, ?_, ?_, ?_, ?_⟩
  · rw [hpass, beq_iff_eq, List.length_eq_zero, hm]
    simp only [List.append_eq_nil, ite_singleton_eq_nil, not_lt, not_or]
    tauto
  · rw [hpass, hproj, sortStrings_dedup_eq_nil, beq_iff_eq, List.length_eq_zero]
  · rw [hproj, mem_sortStrings_dedup, hm]
    simp [mem_ite_singleton]
  · rw [hproj, mem_sortStrings_dedup, hm]
    simp [mem_ite_singleton]
  · rw [hproj, mem_sortStrings_dedup, hm]
    simp [mem_ite_singleton]
  · rw [hproj, mem_sortStrings_dedup, hm]
    simp [mem_ite_singleton]
  · rw [hproj, mem_sortStrings_dedup, hm]
    simp [mem_ite_singleton]

/-- C5: on an empty cumulative document list the low-reliability ratio is
defined to be `1`, and under the default profile (`low_ratio_max = 0.3`) the
gate fails with the `reliability` slot among `missing_slots`. -/
theorem evaluateGate_empty_fails_reliability (stats : Stats) :
    lowRatio stats.low_reliability_count 0 = 1 ∧
    "reliability" ∈ (evaluateGate [] stats defaultThresholdProfile).2.1 ∧
    (evaluateGate [] stats defaultThresholdProfile).1 = false := by
  have hr : lowRatio stats.low_reliability_count 0 = 1 := by simp [lowRatio]
  have hm := gateMissing_eq [] stats defaultThresholdProfile
  have hproj : (evaluateGate [] stats defaultThresholdProfile).2.1 =
      sortStrings (gateMissing [] stats defaultThresholdProfile).dedup := rfl
  have hpass : (evaluateGate [] stats defaultThresholdProfile).1 =
      ((gateMissing [] stats defaultThresholdProfile).length == 0) := rfl
  have hlt : defaultThresholdProfile.low_ratio_max <
      lowRatio stats.low_reliability_count 0 := by
    rw [hr]
    norm_num [defaultThresholdProfile]
  refine ⟨hr, ?_, ?_⟩
  · rw [hproj, mem_sortStrings_dedup, hm]
    simp [mem_ite_singleton, hlt]
  · rw [hpass, beq_eq_false_iff_ne, Ne, List.length_eq_zero, hm]
    simp [ite_singleton_eq_nil, hlt]

set_option maxHeartbeats 3200000 in
/-- Master enumeration of `_calculate_reliability`: the returned score is the
clamped additive score, its bounds, and the label/tier characterisation, by
case analysis over source type, category and recency. -/
theorem calcRel_master (doc : Doc) :
    ((calculateReliability doc).reliability_score =
      max 0 (min 1 ((1:ℚ)/2 + (if doc.source_type = "primary" then (2:ℚ)/10 else 0) +
        categoryBonus doc.source_category + (if doc.is_recent then (1:ℚ)/10 else 0)))) ∧
    0 ≤ (calculateReliability doc).reliability_score ∧
    (calculateReliability doc).reliability_score ≤ 1 ∧
    (((calculateReliability doc).reliability = "high" ∧
        (calculateReliability doc).evidence_tier = "tier1") ↔
      (7:ℚ)/10 ≤ (calculateReliability doc).reliability_score) ∧
    (((calculateReliability doc).reliability = "medium" ∧
        (calculateReliability doc).evidence_tier = "tier2") ↔
      ((4:ℚ)/10 ≤ (calculateReliability doc).reliability_score ∧
        (calculateReliability doc).reliability_score < 7/10)) ∧
    (((calculateReliability doc).reliability = "low" ∧
        (calculateReliability doc).evidence_tier = "tier3") ↔
      (calculateReliability doc).reliability_score < 4/10) ∧
    (4:ℚ)/10 ≤ (calculateReliability doc).reliability_score ∧
    (calculateReliability doc).reliability_score ≤ (9:ℚ)/10 ∧
    ((calculateReliability doc).reliability = "high" ∨
      (calculateReliability doc).reliability = "medium") ∧
    ((calculateReliability doc).evidence_tier = "tier1" ∨
      (calculateReliability doc).evidence_tier = "tier2") := by
  by_cases hp : doc.source_type = "primary" <;>
  cases hb : doc.is_recent <;>
  by_cases h1 : doc.source_category = "company" <;>
  by_cases h2 : doc.source_category = "news" <;>
  by_cases h3 : doc.source_category = "blog" <;>
    (try simp_all [calculateReliability, categoryBonus]) <;>
    (try norm_num [round2, roundHalfEven, min_def, max_def]) <;>
    (try simp_all)

/-- C2: `_calculate_reliability` returns the clamp to `[0,1]` of
`0.5 + 0.2·[primary] + categoryBonus + 0.1·[recent]`; the score is always in
`[0,1]`, and the label/tier pair is the deterministic three-range function of
the score with boundaries `0.7` and `0.4`. -/
theorem calculateReliability_spec (doc : Doc) :
    ((calculateReliability doc).reliability_score =
      max 0 (min 1 ((1:ℚ)/2 + (if doc.source_type = "primary" then (2:ℚ)/10 else 0) +
        categoryBonus doc.source_category + (if doc.is_recent then (1:ℚ)/10 else 0)))) ∧
    (0 ≤ (calculateReliability doc).reliability_score ∧
      (calculateReliability doc).reliability_score ≤ 1) ∧
    (((calculateReliability doc).reliability = "high" ∧
        (calculateReliability doc).evidence_tier = "tier1") ↔
      (7:ℚ)/10 ≤ (calculateReliability doc).reliability_score) ∧
    (((calculateReliability doc).reliability = "medium" ∧
        (calculateReliability doc).evidence_tier = "tier2") ↔
      ((4:ℚ)/10 ≤ (calculateReliability doc).reliability_score ∧
        (calculateReliability doc).reliability_score < 7/10)) ∧
    (((calculateReliability doc).reliability = "low" ∧
        (calculateReliability doc).evidence_tier = "tier3") ↔
      (calculateReliability doc).reliability_score < 4/10) := by
  obtain ⟨hA, hB, hC, hD, hE, hF, _⟩ := calcRel_master doc
  exact ⟨hA, ⟨hB, hC⟩, hD, hE, hF⟩

/-- C8: `_parse_date` accepts ISO dates, numeric dates with dash, slash or
dot separators and abbreviated textual dates, and unparseable or missing
dates give the `9999`/not-recent sentinel in `_assess_reliability`; but a
full-month-name textual date such as `January 5, 2020` is not parsed, because
the month map only ever contains the abbreviated names. -/
theorem parseDate_spec_and_monthName_gap :
    parseDate (some "2020-01-05") = some ⟨2020, 1, 5⟩ ∧
    parseDate (some "2020/1/5") = some ⟨2020, 1, 5⟩ ∧
    parseDate (some "2020.12.31") = some ⟨2020, 12, 31⟩ ∧
    parseDate (some "Jan 5, 2020") = some ⟨2020, 1, 5⟩ ∧
    parseDate none = none ∧
    parseDate (some "garbage") = none ∧
    parseDate (some "January 5, 2020") = none ∧
    (∀ (today : PDate) (doc : Doc),
      (assessOne today { doc with date := none }).age_days = 9999 ∧
      (assessOne today { doc with date := none }).is_recent = false ∧
      (assessOne today { doc with date := some "January 5, 2020" }).age_days = 9999 ∧
      (assessOne today { doc with date := some "January 5, 2020" }).is_recent = false) := by
  have hjan : parseDate (some "January 5, 2020") = none := by decide
  refine ⟨by decide, by decide, by decide, by decide, rfl, by decide, hjan, ?_⟩
  intro today doc
  refine ⟨?_, ?_, ?_, ?_⟩
  · simp [assessOne, parseDate]
  · simp [assessOne, parseDate]
  · simp [assessOne, hjan]
  · simp [assessOne, hjan]

theorem foldl_statsStep_low (l : List Doc) (st : Stats)
    (h : ∀ d ∈ l, d.reliability = "high" ∨ d.reliability = "medium") :
    (l.foldl statsStep st).low_reliability_count = st.low_reliability_count := by
  induction l generalizing st with
  | nil => rfl
  | cons d ds ih =>
      have hd := h d (List.mem_cons_self d ds)
      have hstep : (statsStep st d).low_reliability_count = st.low_reliability_count := by
        by_cases hp : d.source_type = "primary" <;> by_cases hr : d.is_recent <;>
          rcases hd with h' | h' <;> simp [statsStep, hp, hr, h']
      rw [List.foldl_cons, ih (statsStep st d) (fun x hx => h x (List.mem_cons_of_mem d hx)),
        hstep]

theorem calculateStatistics_low (documents : List Doc)
    (h : ∀ d ∈ documents, d.reliability = "high" ∨ d.reliability = "medium") :
    (calculateStatistics documents).low_reliability_count = 0 := by
  unfold calculateStatistics
  split
  · rfl
  · have hz := foldl_statsStep_low documents emptyStats h
    simp only [emptyStats] at hz
    cases hfm : documents.filterMap (fun d => d.date) <;>
      simp [hfm, hz, emptyStats]

theorem assessOne_reliability_hm (today : PDate) (doc : Doc) :
    (assessOne today doc).reliability = "high" ∨
      (assessOne today doc).reliability = "medium" := by
  cases hp : parseDate doc.date <;>
  · simp only [assessOne, hp]
    obtain ⟨-, -, -, -, -, -, -, -, hI, -⟩ := calcRel_master _
    exact hI

/-- C10: `_calculate_reliability` can only produce scores in `[0.4, 0.9]`
and never the `low`/`tier3` label, so a corpus processed by
`_assess_reliability` has `low_reliability_count = 0` and the
low-reliability-ratio gate check fails exactly on the empty corpus. -/
theorem assessed_corpus_never_low (today : PDate) (documents : List Doc) :
    (∀ doc : Doc, (4:ℚ)/10 ≤ (calculateReliability doc).reliability_score ∧
      (calculateReliability doc).reliability_score ≤ (9:ℚ)/10 ∧
      (calculateReliability doc).reliability ≠ "low" ∧
      (calculateReliability doc).evidence_tier ≠ "tier3") ∧
    (calculateStatistics (assessReliability today documents)).low_reliability_count = 0 ∧
    (defaultThresholdProfile.low_ratio_max <
        lowRatio (calculateStatistics (assessReliability today documents)).low_reliability_count
          (assessReliability today documents).length ↔ documents = []) := by
  have hmem : ∀ d ∈ assessReliability today documents,
      d.reliability = "high" ∨ d.reliability = "medium" := by
    intro d hd
    obtain ⟨d₀, -, rfl⟩ := List.mem_map.mp hd
    exact assessOne_reliability_hm today d₀
  have hlow := calculateStatistics_low _ hmem
  refine ⟨?_, hlow, ?_⟩
  · intro doc
    obtain ⟨-, -, -, -, -, -, hG, hH, hI, hJ⟩ := calcRel_master doc
    refine ⟨hG, hH, ?_, ?_⟩
    · rcases hI with h | h <;> simp [h]
    · rcases hJ with h | h <;> simp [h]
  · rw [hlow, assessReliability, List.length_map]
    cases documents with
    | nil =>
        simp only [List.length_nil, lowRatio]
        norm_num [defaultThresholdProfile]
    | cons d ds =>
        simp only [List.length_cons, lowRatio]
        norm_num [defaultThresholdProfile]
        exact List.cons_ne_nil d ds

/-- C9: `_build_queries` is a pure function of its inputs (the clock-derived
cutoff date being one of them): attempt 1 yields exactly the ten baseline
queries, attempt ≥ 2 with no missing slot yields the baseline, and attempt
≥ 2 with missing slots yields the baseline followed by the targeted block in
which each missing slot contributes two or three queries. -/
theorem buildQueries_spec (companyName domain recentCut : String) (attempt : Nat)
    (missing : List String) :
    (baseQueries companyName domain).length = 10 ∧
    buildQueries companyName domain 1 missing recentCut = baseQueries companyName domain ∧
    (2 ≤ attempt → missing = [] →
      buildQueries companyName domain attempt missing recentCut =
        baseQueries companyName domain) ∧
    (2 ≤ attempt → missing ≠ [] →
      buildQueries companyName domain attempt missing recentCut =
        baseQueries companyName domain ++
          targetedQueries companyName domain missing recentCut) ∧
    (targetedQueries companyName domain missing recentCut).length =
      (if "primary" ∈ missing then 3 else 0) + (if "recent" ∈ missing then 2 else 0) +
      (if "docs_count" ∈ missing then 3 else 0) + (if "reliability" ∈ missing then 3 else 0) +
      (if "diversity" ∈ missing then 3 else 0) ∧
    buildQueries companyName domain attempt missing recentCut =
      buildQueries companyName domain attempt missing recentCut := by
  refine ⟨rfl, by simp [buildQueries], ?_, ?_, ?_, rfl⟩
  · intro ha hm
    have : attempt ≠ 1 := by omega
    simp [buildQueries, this, hm]
  · intro ha hm
    have : attempt ≠ 1 := by omega
    simp [buildQueries, this, hm]
  · by_cases m1 : "primary" ∈ missing <;>
    by_cases m2 : "recent" ∈ missing <;>
    by_cases m3 : "docs_count" ∈ missing <;>
    by_cases m4 : "reliability" ∈ missing <;>
    by_cases m5 : "diversity" ∈ missing <;>
      simp [targetedQueries, m1, m2, m3, m4, m5]

theorem buildQueries_spec_witness :
    (2 ≤ 2 ∧ (["primary"] : List String) ≠ []) ∧
    buildQueries "Acme" "fintech" 2 ["primary"] "2025-04-15" =
      baseQueries "Acme" "fintech" ++
        targetedQueries "Acme" "fintech" ["primary"] "2025-04-15" :=
  ⟨⟨by norm_num, by decide⟩,
    (buildQueries_spec "Acme" "fintech" "2025-04-15" 2 ["primary"]).2.2.2.1
      (by norm_num) (by decide)⟩

theorem assessOne_id (today : PDate) (doc : Doc) : (assessOne today doc).id = doc.id := by
  cases hp : parseDate doc.date <;> simp [assessOne, hp]

theorem assessOne_url (today : PDate) (doc : Doc) : (assessOne today doc).url = doc.url := by
  cases hp : parseDate doc.date <;> simp [assessOne, hp]

theorem assessOne_docNorm (today : PDate) (doc : Doc) :
    docNorm (assessOne today doc) = docNorm doc := by
  unfold docNorm
  rw [assessOne_url]

theorem assessReliability_map_docNorm (today : PDate) (l : List Doc) :
    (assessReliability today l).map docNorm = l.map docNorm := by
  simp [assessReliability, List.map_map, Function.comp, assessOne_docNorm]

theorem assessReliability_length (today : PDate) (l : List Doc) :
    (assessReliability today l).length = l.length := by
  simp [assessReliability]

theorem dedupNew_spec (analyzed : List Doc) : ∀ seen : List String,
    (∀ d ∈ (dedupNew seen analyzed).1, d.url ≠ none) ∧
    ((dedupNew seen analyzed).1.map docNorm).Nodup ∧
    (∀ d ∈ (dedupNew seen analyzed).1, docNorm d ∉ seen) ∧
    (∀ x ∈ seen, x ∈ (dedupNew seen analyzed).2) ∧
    (∀ d ∈ (dedupNew seen analyzed).1, docNorm d ∈ (dedupNew seen analyzed).2) := by
  induction analyzed with
  | nil => intro seen; simp [dedupNew]
  | cons d rest ih =>
      intro seen
      match hu : d.url with
      | none =>
          have hstep : dedupNew seen (d :: rest) = dedupNew seen rest := by
            simp [dedupNew, hu]
          rw [hstep]
          exact ih seen
      | some u =>
          by_cases hmem : normalizeUrl u ∈ seen
          · have hstep : dedupNew seen (d :: rest) = dedupNew seen rest := by
              simp [dedupNew, hu, hmem]
            rw [hstep]
            exact ih seen
          · have hstep : dedupNew seen (d :: rest) =
                (d :: (dedupNew (seen ++ [normalizeUrl u]) rest).1,
                  (dedupNew (seen ++ [normalizeUrl u]) rest).2) := by
              simp [dedupNew, hu, hmem]
            obtain ⟨ha, hb, hc, hd2, he⟩ := ih (seen ++ [normalizeUrl u])
            have hdnorm : docNorm d = normalizeUrl u := by simp [docNorm, hu]
            rw [hstep]
            refine ⟨?_, ?_, ?_, ?_, ?_⟩
            · intro x hx
              rcases List.mem_cons.mp hx with rfl | hx'
              · simp [hu]
              · exact ha x hx'
            · refine List.nodup_cons.mpr ⟨?_, hb⟩
              intro hcontra
              obtain ⟨x, hx, hxeq⟩ := List.mem_map.mp hcontra
              have := hc x hx
              rw [hxeq, hdnorm] at this
              exact this (List.mem_append_right seen (List.mem_singleton.mpr rfl))
            · intro x hx
              rcases List.mem_cons.mp hx with rfl | hx'
              · rw [hdnorm]; exact hmem
              · intro hin
                exact hc x hx' (List.mem_append_left _ hin)
            · intro x hx
              exact hd2 x (List.mem_append_left _ hx)
            · intro x hx
              rcases List.mem_cons.mp hx with rfl | hx'
              · rw [hdnorm]
                exact hd2 _ (List.mem_append_right seen (List.mem_singleton.mpr rfl))
              · exact he x hx'

/-- The dedup invariant carried by the loop: every accumulated document has a
URL, normalized URLs are pairwise distinct, and all of them are recorded in
the seen-set. -/
def SeenInv (cum : List Doc) (seen : List String) : Prop :=
  (∀ d ∈ cum, d.url ≠ none) ∧ ((cum.map docNorm).Nodup) ∧ (∀ d ∈ cum, docNorm d ∈ seen)

theorem accumulateFrom_invariant (today : PDate) (batches : List (List Doc)) :
    ∀ (cum : List Doc) (seen : List String), SeenInv cum seen →
      SeenInv (accumulateFrom today cum seen batches).1
        (accumulateFrom today cum seen batches).2 := by
  induction batches with
  | nil => intro cum seen h; exact h
  | cons batch rest ih =>
      intro cum seen h
      obtain ⟨h1, h2, h3⟩ := h
      obtain ⟨da, db, dc, dd, de⟩ := dedupNew_spec batch seen
      apply ih
      refine ⟨?_, ?_, ?_⟩
      · intro d hd
        obtain ⟨d₀, hd₀, rfl⟩ := List.mem_map.mp hd
        rw [assessOne_url]
        rcases List.mem_append.mp hd₀ with hin | hin
        · exact h1 d₀ hin
        · exact da d₀ hin
      · rw [assessReliability_map_docNorm, List.map_append]
        refine List.Nodup.append h2 db ?_
        intro x hx1 hx2
        obtain ⟨a, ha, rfl⟩ := List.mem_map.mp hx1
        obtain ⟨b, hb, hventry⟩ := List.mem_map.mp hx2
        have hbs := dc b hb
        rw [hventry] at hbs
        exact hbs (h3 a ha)
      · intro d hd
        obtain ⟨d₀, hd₀, rfl⟩ := List.mem_map.mp hd
        rw [assessOne_docNorm]
        rcases List.mem_append.mp hd₀ with hin | hin
        · exact dd _ (h3 d₀ hin)
        · exact de d₀ hin

/-- C3: throughout a run, the cumulative corpus only contains documents with
a URL, no two of its documents share a normalized URL (so a hit whose
normalized URL was seen in any earlier attempt is never added again), and the
persistent seen-set records every accumulated normalized URL. -/
theorem run_dedup_invariant (today : PDate) (batches : List (List Doc)) :
    (∀ d ∈ (accumulate today batches).1, d.url ≠ none) ∧
    ((accumulate today batches).1.map docNorm).Nodup ∧
    (∀ d ∈ (accumulate today batches).1, docNorm d ∈ (accumulate today batches).2) :=
  accumulateFrom_invariant today batches [] []
    ⟨fun d hd => absurd hd (List.not_mem_nil d),
     List.nodup_nil,
     fun d hd => absurd hd (List.not_mem_nil d)⟩

theorem run_dedup_invariant_witness :
    ((accumulate wToday [[wDocA, wDocA]]).1.map docNorm).Nodup ∧
    (assessOne wToday wDocA).url ≠ none ∧
    docNorm (assessOne wToday wDocA) ∈ (accumulate wToday [[wDocA, wDocA]]).2 :=
  ⟨(run_dedup_invariant wToday [[wDocA, wDocA]]).2.1,
   (run_dedup_invariant wToday [[wDocA, wDocA]]).1 _
     (by simp [accumulate, accumulateFrom, dedupNew, assessReliability, wDocA]),
   (run_dedup_invariant wToday [[wDocA, wDocA]]).2.2 _
     (by simp [accumulate, accumulateFrom, dedupNew, assessReliability, wDocA])⟩

theorem accumulateFrom_append (today : PDate) (bs : List (List Doc)) :
    ∀ (cum : List Doc) (seen : List String) (b : List Doc),
      accumulateFrom today cum seen (bs ++ [b]) =
        accumulateFrom today (accumulateFrom today cum seen bs).1
          (accumulateFrom today cum seen bs).2 [b] := by
  induction bs with
  | nil => intro cum seen b; rfl
  | cons hd tl ih =>
      intro cum seen b
      simp only [List.cons_append, accumulateFrom]
      exact ih _ _ b

/-- C4: the cumulative corpus is monotonically non-decreasing across
attempts: processing one more attempt batch never shrinks it, and every
already-accumulated document persists (same identifier and URL; the derived
reliability fields are recomputed in place). -/
theorem cumulative_monotone (today : PDate) (batches : List (List Doc)) (batch : List Doc) :
    (accumulate today batches).1.length ≤ (accumulate today (batches ++ [batch])).1.length ∧
    (∀ d ∈ (accumulate today batches).1,
      ∃ d' ∈ (accumulate today (batches ++ [batch])).1, d'.id = d.id ∧ d'.url = d.url) := by
  have happ := accumulateFrom_append today batches [] [] batch
  have hnext : (accumulate today (batches ++ [batch])).1 =
      assessReliability today
        ((accumulate today batches).1 ++ (dedupNew (accumulate today batches).2 batch).1) := by
    rw [accumulate, happ]
    rfl
  constructor
  · rw [hnext, assessReliability_length, List.length_append]
    exact Nat.le_add_right _ _
  · intro d hd
    refine ⟨assessOne today d, ?_, assessOne_id today d, assessOne_url today d⟩
    rw [hnext, assessReliability]
    exact List.mem_map_of_mem _ (List.mem_append_left _ hd)

theorem cumulative_monotone_witness :
    ((accumulate wToday [[wDocA]]).1.length ≤
      (accumulate wToday ([[wDocA]] ++ [[wDocB]])).1.length) ∧
    (∃ d' ∈ (accumulate wToday ([[wDocA]] ++ [[wDocB]])).1,
      d'.id = (assessOne wToday wDocA).id ∧ d'.url = (assessOne wToday wDocA).url) :=
  ⟨(cumulative_monotone wToday [[wDocA]] [wDocB]).1,
   (cumulative_monotone wToday [[wDocA]] [wDocB]).2 _
     (by simp [accumulate, accumulateFrom, dedupNew, assessReliability, wDocA])⟩

theorem evaluateGate_nil_passed_false (stats : Stats) :
    (evaluateGate [] stats defaultThresholdProfile).1 = false := by
  have hm := gateMissing_eq [] stats defaultThresholdProfile
  have hpass : (evaluateGate [] stats defaultThresholdProfile).1 =
      ((gateMissing [] stats defaultThresholdProfile).length == 0) := rfl
  rw [hpass, beq_eq_false_iff_ne, Ne, List.length_eq_zero, hm]
  simp [ite_singleton_eq_nil, defaultThresholdProfile]

/-- C6: when the gate still fails on the attempt equal to `max_attempts`
(two, with the default profile `execute` always uses), the run terminates
with status `partial` and the returned document list is the full corpus
accumulated over both attempts. -/
theorem execute_exhausted_partial (today : PDate)
    (nowIso company domain recentCut : String) (r1 r2 : List Doc)
    (h1 : (evaluateGate (accumulate today [r1]).1
        (calculateStatistics (accumulate today [r1]).1) defaultThresholdProfile).1 = false)
    (h2 : (evaluateGate (accumulate today [r1, r2]).1
        (calculateStatistics (accumulate today [r1, r2]).1) defaultThresholdProfile).1 = false) :
    (execute today nowIso company domain recentCut
        (fun n => if n = 1 then Except.ok r1 else Except.ok r2)).web_collection.status =
      "partial" ∧
    (execute today nowIso company domain recentCut
        (fun n => if n = 1 then Except.ok r1 else Except.ok r2)).web_collection.documents =
      (accumulate today [r1, r2]).1 ∧
    (execute today nowIso company domain recentCut
        (fun n => if n = 1 then Except.ok r1 else Except.ok r2)).web_collection.attemptsCurrent =
      2 := by
  have e1 : (accumulate today [r1]).1 =
      assessReliability today ([] ++ (dedupNew [] r1).1) := rfl
  have e2 : (accumulate today [r1, r2]).1 =
      assessReliability today
        (assessReliability today ([] ++ (dedupNew [] r1).1) ++
          (dedupNew (dedupNew [] r1).2 r2).1) := rfl
  rw [e1] at h1
  rw [e2] at h2
  simp only [List.nil_append, defaultThresholdProfile] at h1 h2
  refine ⟨?_, ?_, ?_⟩ <;>
    simp [execute, executeGo, initWebState, defaultThresholdProfile, h1, h2, e2]

theorem execute_exhausted_partial_witness :
    (execute wToday "t0" "acme" "ai" "cut"
        (fun n => if n = 1 then Except.ok [] else Except.ok [])).web_collection.status =
      "partial" ∧
    (execute wToday "t0" "acme" "ai" "cut"
        (fun n => if n = 1 then Except.ok [] else Except.ok [])).web_collection.documents =
      (accumulate wToday [[], []]).1 ∧
    (execute wToday "t0" "acme" "ai" "cut"
        (fun n => if n = 1 then Except.ok [] else
          Except.ok [])).web_collection.attemptsCurrent = 2 :=
  execute_exhausted_partial wToday "t0" "acme" "ai" "cut" [] []
    (evaluateGate_nil_passed_false _) (evaluateGate_nil_passed_false _)

/-- C7: an exception escaping an attempt body makes `execute` return normally
with status `degraded`, the exception message in the `error` field, an error
entry (stage `web_collection`, message, timestamp, impact `high`) appended to
the run's error list, and no further attempt: shown for an exception on
attempt 1 (the loop stops with one attempt taken) and for an exception on
attempt 2 after a failed first gate (the corpus accumulated so far is
preserved and returned). -/
theorem execute_exception_degraded (today : PDate)
    (nowIso company domain recentCut e : String) (r1 : List Doc)
    (h1 : (evaluateGate (accumulate today [r1]).1
        (calculateStatistics (accumulate today [r1]).1) defaultThresholdProfile).1 = false) :
    ((execute today nowIso company domain recentCut
        (fun _ => Except.error e)).web_collection.status = "degraded" ∧
     (execute today nowIso company domain recentCut
        (fun _ => Except.error e)).web_collection.error = some e ∧
     (execute today nowIso company domain recentCut (fun _ => Except.error e)).errors =
       [{ stage := "web_collection", error := e, timestamp := nowIso, recovered := false,
          traceback := none, impact_on_reliability := "high" }] ∧
     (execute today nowIso company domain recentCut
        (fun _ => Except.error e)).web_collection.attemptsCurrent = 1 ∧
     (execute today nowIso company domain recentCut
        (fun _ => Except.error e)).web_collection.documents = []) ∧
    ((execute today nowIso company domain recentCut
        (fun n => if n = 1 then Except.ok r1 else Except.error e)).web_collection.status =
        "degraded" ∧
     (execute today nowIso company domain recentCut
        (fun n => if n = 1 then Except.ok r1 else Except.error e)).web_collection.error =
        some e ∧
     (execute today nowIso company domain recentCut
        (fun n => if n = 1 then Except.ok r1 else Except.error e)).errors =
       [{ stage := "web_collection", error := e, timestamp := nowIso, recovered := false,
          traceback := none, impact_on_reliability := "high" }] ∧
     (execute today nowIso company domain recentCut
        (fun n => if n = 1 then Except.ok r1 else Except.error e)).web_collection.attemptsCurrent =
        2 ∧
     (execute today nowIso company domain recentCut
        (fun n => if n = 1 then Except.ok r1 else Except.error e)).web_collection.documents =
       (accumulate today [r1]).1) := by
  have e1 : (accumulate today [r1]).1 =
      assessReliability today ([] ++ (dedupNew [] r1).1) := rfl
  rw [e1] at h1
  simp only [List.nil_append, defaultThresholdProfile] at h1
  refine ⟨⟨?_, ?_, ?_, ?_, ?_⟩, ⟨?_, ?_, ?_, ?_, ?_⟩⟩ <;>
    simp [execute, executeGo, initWebState, defaultThresholdProfile, h1, e1]

theorem execute_exception_degraded_witness :
    ((execute wToday "t0" "acme" "ai" "cut"
        (fun _ => Except.error "boom")).web_collection.status = "degraded" ∧
     (execute wToday "t0" "acme" "ai" "cut"
        (fun _ => Except.error "boom")).web_collection.error = some "boom" ∧
     (execute wToday "t0" "acme" "ai" "cut" (fun _ => Except.error "boom")).errors =
       [{ stage := "web_collection", error := "boom", timestamp := "t0", recovered := false,
          traceback := none, impact_on_reliability := "high" }] ∧
     (execute wToday "t0" "acme" "ai" "cut"
        (fun _ => Except.error "boom")).web_collection.attemptsCurrent = 1 ∧
     (execute wToday "t0" "acme" "ai" "cut"
        (fun _ => Except.error "boom")).web_collection.documents = []) ∧
    ((execute wToday "t0" "acme" "ai" "cut"
        (fun n => if n = 1 then Except.ok [] else Except.error "boom")).web_collection.status =
        "degraded" ∧
     (execute wToday "t0" "acme" "ai" "cut"
        (fun n => if n = 1 then Except.ok [] else Except.error "boom")).web_collection.error =
        some "boom" ∧
     (execute wToday "t0" "acme" "ai" "cut"
        (fun n => if n = 1 then Except.ok [] else Except.error "boom")).errors =
       [{ stage := "web_collection", error := "boom", timestamp := "t0", recovered := false,
          traceback := none, impact_on_reliability := "high" }] ∧
     (execute wToday "t0" "acme" "ai" "cut"
        (fun n => if n = 1 then Except.ok [] else
          Except.error "boom")).web_collection.attemptsCurrent = 2 ∧
     (execute wToday "t0" "acme" "ai" "cut"
        (fun n => if n = 1 then Except.ok [] else
          Except.error "boom")).web_collection.documents = (accumulate wToday [[]]).1) :=
  execute_exception_degraded wToday "t0" "acme" "ai" "cut" "boom" []
    (evaluateGate_nil_passed_false _)

theorem parseDate_spec_and_monthName_gap_witness :
    (assessOne wToday { wDocA with date := none }).age_days = 9999 ∧
    (assessOne wToday { wDocA with date := some "January 5, 2020" }).is_recent = false :=
  ⟨(parseDate_spec_and_monthName_gap.2.2.2.2.2.2.2 wToday wDocA).1,
   (parseDate_spec_and_monthName_gap.2.2.2.2.2.2.2 wToday wDocA).2.2.2⟩

theorem assessed_corpus_never_low_witness :
    (calculateStatistics (assessReliability wToday [wDocA])).low_reliability_count = 0 ∧
    (calculateReliability wDocA).reliability ≠ "low" :=
  ⟨(assessed_corpus_never_low wToday [wDocA]).2.1,
   ((assessed_corpus_never_low wToday [wDocA]).1 wDocA).2.2.1⟩

end WebCollection
